import Mathlib

/-!
Verification development for the shadcn-hub crawl/search backend.

The definitions below are a shallow embedding of the TypeScript sources:
  - db schema rows (src/backend/src/db/schema/*.ts) become Lean structures
    with Nat ids and Nat timestamps;
  - drizzle queries become pure functions over an explicit `Db` value whose
    lists play the role of the tables (list order = store order);
  - `SearchService.search` (src/backend/src/services/search.service.ts),
    `ComponentService.browse` / `create` (component service),
    the crawl trigger route (crawl routes) and the zod validation schema
    are translated function by function;
  - SQL ILIKE with a `%q%` pattern is modelled as case-insensitive substring
    containment (the queries used in the theorems contain no wildcard
    metacharacters);
  - jsonb `tags::text` is modelled by serializing the tag list the way
    Postgres prints a jsonb array of strings.
-/

/-- Row of `source_websites` (schema trimmed to the fields the services read). -/
structure SourceWebsite where
  id : Nat
  slug : String
  name : String
deriving Repr, DecidableEq

/-- Row of `component_types` (trimmed to the fields the services read). -/
structure ComponentType where
  id : Nat
  slug : String
  name : String
deriving Repr, DecidableEq

/-- Row of `components` (src/backend/src/db/schema/component.ts), trimmed to
the fields read by search, browse, create and the merge pipeline. -/
structure Component where
  id : Nat
  sourceWebsiteId : Nat
  componentTypeId : Nat
  name : String
  slug : String
  description : Option String
  tags : List String
  sourceCode : String
  contentHash : String
  isActive : Bool
  viewCount : Nat
  createdAt : Nat
deriving Repr, DecidableEq

/-- `crawl_job_status` enum, values exactly as in crawl-job.ts. -/
inductive CrawlJobStatus where
  | pending
  | running
  | success
  | failed
  | cancelled
deriving Repr, DecidableEq

/-- Row of `crawl_jobs` (crawl-job.ts), trimmed to the fields the trigger
route and the counters touch. -/
structure CrawlJob where
  id : Nat
  sourceWebsiteId : Nat
  status : CrawlJobStatus
  componentsFound : Nat
  componentsAdded : Nat
  componentsUpdated : Nat
  componentsRemoved : Nat
deriving Repr, DecidableEq

/-- The relational store: one list per table, list order = store order. -/
structure Db where
  sourceWebsites : List SourceWebsite
  componentTypes : List ComponentType
  components : List Component
  crawlJobs : List CrawlJob
deriving Repr, DecidableEq

/-- Substring containment on character lists (helper for ILIKE). -/
def containsSub (pat : List Char) : List Char → Bool
  | [] => pat.isEmpty
  | c :: rest => pat.isPrefixOf (c :: rest) || containsSub pat rest

/-- SQL ILIKE with percent wildcards on both sides: case-insensitive substring containment. -/
def ilike (hay : String) (pat : String) : Bool :=
  containsSub (pat.toList.map Char.toLower) (hay.toList.map Char.toLower)

/-- Postgres text rendering of a jsonb array of strings, the `tags::text`
cast used by the search query. -/
def tagsText (tags : List String) : String :=
  "[" ++ String.intercalate (", ") (tags.map (fun t => "\"" ++ t ++ "\"")) ++ "]"

/-- `sourceWebsiteService.getBySlug` / the slug lookup inside search/browse:
select ... from source_websites where slug = s limit 1. -/
def findSourceBySlug (db : Db) (slug : String) : Option SourceWebsite :=
  db.sourceWebsites.find? (fun w => w.slug == slug)

/-- Slug lookup on component_types used by search/browse filters. -/
def findTypeBySlug (db : Db) (slug : String) : Option ComponentType :=
  db.componentTypes.find? (fun t => t.slug == slug)

/-- Filters accepted by `SearchService.search`. -/
structure SearchFilter where
  source : Option String
  type : Option String
deriving Repr, DecidableEq

/-- The source-filter conditions pushed by `SearchService.search`: when the
slug resolves, an equality on sourceWebsiteId is added; when it does not,
nothing is pushed (the filter is dropped). -/
def sourceCond (db : Db) (fsource : Option String) : List (Component → Bool) :=
  match fsource with
  | none => []
  | some s =>
    match findSourceBySlug db s with
    | none => []
    | some w => [fun c => c.sourceWebsiteId == w.id]

/-- The type-filter conditions pushed by `SearchService.search`. -/
def typeCond (db : Db) (ftype : Option String) : List (Component → Bool) :=
  match ftype with
  | none => []
  | some s =>
    match findTypeBySlug db s with
    | none => []
    | some t => [fun c => c.componentTypeId == t.id]

/-- The OR of the three ILIKE conditions of `SearchService.search`
(name, description, tags::text); a NULL description matches nothing. -/
def textCond (query : String) (c : Component) : Bool :=
  ilike c.name query ||
    (match c.description with
     | some d => ilike d query
     | none => false) ||
    ilike (tagsText c.tags) query

/-- The full condition list built by `SearchService.search` lines 44-79:
isActive = true, then the optional source/type filters, then the text OR. -/
def searchConditions (db : Db) (query : String) (filter : SearchFilter) :
    List (Component → Bool) :=
  [fun c => c.isActive] ++ sourceCond db filter.source ++
    typeCond db filter.type ++ [fun c => textCond query c]

/-- Shape of the value returned by `SearchService.search` (responseTime and
suggestions are wall-clock/analytics side channels and are omitted). -/
structure SearchResult where
  results : List Component
  total : Nat
deriving Repr, DecidableEq

/-- `SearchService.search`: select from components where AND(conditions)
limit `limit`; no ORDER BY is issued, so rows come back in store order;
`total` is set to `results.length`. -/
def search (db : Db) (query : String) (limit : Nat) (filter : SearchFilter) :
    SearchResult :=
  let conds := searchConditions db query filter
  let rows := (db.components.filter (fun c => conds.all (fun p => p c))).take limit
  { results := rows, total := rows.length }

/-- Filters accepted by `ComponentService.browse`. -/
structure ComponentFilter where
  sourceSlug : Option String
  typeSlug : Option String
  isActive : Option Bool
deriving Repr, DecidableEq

/-- Sort options of `ComponentService.browse`. -/
inductive BrowseSort where
  | newest
  | popular
  | name
deriving Repr, DecidableEq

/-- The condition list built by `ComponentService.browse` lines 44-78:
isActive from the filter (defaulting to true), then the optional
source/type filters with the same silent-drop on unknown slugs. -/
def browseConditions (db : Db) (filter : ComponentFilter) :
    List (Component → Bool) :=
  (match filter.isActive with
   | some b => [fun c => c.isActive == b]
   | none => [fun c => c.isActive]) ++
    (match filter.sourceSlug with
     | none => []
     | some s =>
       match findSourceBySlug db s with
       | none => []
       | some w => [fun c => c.sourceWebsiteId == w.id]) ++
    (match filter.typeSlug with
     | none => []
     | some s =>
       match findTypeBySlug db s with
       | none => []
       | some t => [fun c => c.componentTypeId == t.id])

/-- The ORDER BY comparator of `ComponentService.browse`: popular = viewCount
descending, name = name ascending, newest = createdAt descending. -/
def browseLe (sort : BrowseSort) (a b : Component) : Bool :=
  match sort with
  | .popular => b.viewCount ≤ a.viewCount
  | .name => decide (a.name ≤ b.name)
  | .newest => b.createdAt ≤ a.createdAt

/-- Shape of the value returned by `ComponentService.browse`. -/
structure PaginatedComponents where
  components : List Component
  page : Nat
  limit : Nat
  total : Nat
  totalPages : Nat
  hasNext : Bool
  hasPrevious : Bool
deriving Repr, DecidableEq

/-- `ComponentService.browse`: count over the filtered set, ceil-divide for
totalPages, sort, then offset/limit pagination. -/
def browse (db : Db) (page limit : Nat) (filter : ComponentFilter)
    (sort : BrowseSort) : PaginatedComponents :=
  let conds := browseConditions db filter
  let rows := db.components.filter (fun c => conds.all (fun p => p c))
  let total := rows.length
  let totalPages := (total + limit - 1) / limit
  let offset := (page - 1) * limit
  let ordered := rows.mergeSort (browseLe sort)
  let pageRows := (ordered.drop offset).take limit
  { components := pageRows, page := page, limit := limit, total := total,
    totalPages := totalPages, hasNext := page < totalPages,
    hasPrevious := 1 < page }

/-- `ComponentService.create`: a plain INSERT with no conflict handling
(the components_source_slug_idx of component.ts is a non-unique index). -/
def create (db : Db) (data : Component) : Component × Db :=
  (data, { db with components := db.components ++ [data] })

/-- Outcome of the crawl trigger route: an AppError with its HTTP status, or
the created job. -/
inductive TriggerOutcome where
  | httpError (statusCode : Nat) (message : String)
  | created (job : CrawlJob)
deriving Repr, DecidableEq

/-- The running-job probe of the trigger route: select from crawl_jobs where
sourceWebsiteId = id and status = running limit 1. -/
def findRunningJob (db : Db) (sourceId : Nat) : Option CrawlJob :=
  db.crawlJobs.find? (fun j => j.sourceWebsiteId == sourceId && j.status == .running)

/-- POST /api/crawl/trigger (crawl routes, lines 37-85): resolve the source,
reject 409 when not force and a running job exists, else insert a new
pending job. `newId` stands for the generated uuid. -/
def triggerCrawl (db : Db) (sourceSlug : String) (force : Bool) (newId : Nat) :
    TriggerOutcome × Db :=
  match findSourceBySlug db sourceSlug with
  | none => (.httpError 404 ("Source website not found"), db)
  | some source =>
    if !force && (findRunningJob db source.id).isSome then
      (.httpError 409 ("Crawl already in progress for this source"), db)
    else
      let newJob : CrawlJob :=
        { id := newId, sourceWebsiteId := source.id, status := .pending,
          componentsFound := 0, componentsAdded := 0,
          componentsUpdated := 0, componentsRemoved := 0 }
      (.created newJob, { db with crawlJobs := db.crawlJobs ++ [newJob] })

/-- Entry of the client-side Fuse index built by `buildSearchIndex`
(id, name, description, tags, slug of each active component). -/
structure IndexEntry where
  id : Nat
  name : String
  description : Option String
  tags : List String
  slug : String
deriving Repr, DecidableEq

/-- Mutable fields of the SearchService singleton that back `clientSearch`:
the Fuse index reference and the time of its last rebuild (ms). -/
structure SearchServiceState where
  fuseIndex : Option (List IndexEntry)
  lastIndexUpdate : Option Nat
deriving Repr, DecidableEq

/-- `indexUpdateInterval = 5 * 60 * 1000` ms. -/
def indexUpdateInterval : Nat := 5 * 60 * 1000

/-- The projection selected by `buildSearchIndex`: the active components. -/
def indexEntries (db : Db) : List IndexEntry :=
  (db.components.filter (fun c => c.isActive)).map (fun c =>
    { id := c.id, name := c.name, description := c.description,
      tags := c.tags, slug := c.slug })

/-- `SearchService.buildSearchIndex`: rebuild the Fuse index over the active
components and stamp `lastIndexUpdate` with the current time. -/
def buildSearchIndex (db : Db) (now : Nat) : SearchServiceState :=
  { fuseIndex := some (indexEntries db), lastIndexUpdate := some now }

/-- Matching of one index entry by the external Fuse.js library over the
configured keys (name, description, tags). Fuse is an npm dependency, not
repository code; it is modelled as substring matching on those keys, which
is all the theorems below rely on. -/
def fuseMatch (query : String) (e : IndexEntry) : Bool :=
  ilike e.name query ||
    (match e.description with
     | some d => ilike d query
     | none => false) ||
    e.tags.any (fun t => ilike t query)

/-- `fuseIndex.search(query, limit)`: matching entries, truncated at limit. -/
def fuseSearch (idx : List IndexEntry) (query : String) (limit : Nat) :
    List IndexEntry :=
  (idx.filter (fun e => fuseMatch query e)).take limit

/-- The staleness test at the top of `clientSearch`: rebuild when the index
or its timestamp is missing, or when more than 5 minutes have passed. -/
def needsRebuild (st : SearchServiceState) (now : Nat) : Bool :=
  match st.fuseIndex, st.lastIndexUpdate with
  | some _, some t => indexUpdateInterval < now - t
  | _, _ => true

/-- Outcome of `clientSearch`: a result page, or the AppError 500 of the
unreachable missing-index branch. -/
inductive ClientSearchOutcome where
  | ok (results : List IndexEntry) (total : Nat)
  | serverError (statusCode : Nat)
deriving Repr, DecidableEq

/-- `SearchService.clientSearch` lines 264-293: when the index is stale the
querying call itself awaits `buildSearchIndex` and only then answers, from
the freshly built index; otherwise it answers from the existing index. The
returned state is the service state after the call. -/
def clientSearch (st : SearchServiceState) (db : Db) (now : Nat)
    (query : String) (limit : Nat) :
    ClientSearchOutcome × SearchServiceState :=
  let st1 := if needsRebuild st now then buildSearchIndex db now else st
  match st1.fuseIndex with
  | none => (.serverError 500, st1)
  | some idx =>
    let rs := fuseSearch idx query limit
    (.ok rs rs.length, st1)

/-- The `q` check of `searchQuerySchema` (validation schemas):
`z.string().min(2).max(500)`. -/
def searchQuerySchemaQ (q : String) : Bool :=
  2 ≤ q.length && q.length ≤ 500

/-- Outcome of GET /api/search: a 400 validation error (ZodError mapped by
the error middleware), or the result of `SearchService.search`. -/
inductive SearchRouteOutcome where
  | validationError (statusCode : Nat)
  | ok (result : SearchResult)
deriving Repr, DecidableEq

/-- GET /api/search (components routes): `validateQuery(searchQuerySchema)`
runs before the handler, so an invalid `q` is rejected with 400 and the
handler — and with it `SearchService.search` — never runs. The zod schema is
repository code; the generic `validateQuery` middleware body is not under
the sources and its reject-before-handler wiring is modelled from the spec
(queries failing validation produce `InvalidQueryError`, not a result). -/
def searchRoute (db : Db) (q : String) (limit : Nat) (filter : SearchFilter) :
    SearchRouteOutcome :=
  if searchQuerySchemaQ q then .ok (search db q limit filter)
  else .validationError 400

/-- Modelled from the spec: a normalized crawl item as fed to the Dedup and
Merge Engine of section 4.3 — the engine itself is left unimplemented in the
repository (the trigger route stops at a TODO before queueing the job). -/
structure NormalizedItem where
  slug : String
  name : String
  contentHash : String
deriving Repr, DecidableEq

/-- Modelled from the spec: classification outcome of one incoming item. -/
inductive MergeOutcome where
  | add
  | update
  | unchanged
deriving Repr, DecidableEq

/-- Modelled from the spec: a catalog mutation emitted by the merge engine;
the lastSeen bump of an unchanged item is not a catalog write per section
4.3 (no write, only bump lastSeen). -/
inductive CatalogWrite where
  | upsertAdd (item : NormalizedItem)
  | upsertUpdate (item : NormalizedItem)
  | markInactive (slugs : List String)
deriving Repr, DecidableEq

/-- Modelled from the spec: job counters produced by one merge run. -/
structure MergeCounters where
  found : Nat
  added : Nat
  updated : Nat
  removed : Nat
deriving Repr, DecidableEq

/-- The active component for a (sourceId, slug) key, the lookup the merge
engine classifies against (mirrors `ComponentService.existsByHash` in using
the stored contentHash for change detection). -/
def findActiveComponent (db : Db) (sourceId : Nat) (slug : String) :
    Option Component :=
  db.components.find?
    (fun c => c.sourceWebsiteId == sourceId && c.slug == slug && c.isActive)

/-- Modelled from the spec: section 4.3 classification keyed by
(sourceId, slug) — absent = add, same fingerprint = unchanged,
different fingerprint = update. -/
def classifyItem (db : Db) (sourceId : Nat) (i : NormalizedItem) :
    MergeOutcome :=
  match findActiveComponent db sourceId i.slug with
  | none => .add
  | some c => if c.contentHash == i.contentHash then .unchanged else .update

/-- Slugs of the currently active components of one source. -/
def activeSlugs (db : Db) (sourceId : Nat) : List String :=
  (db.components.filter (fun c => c.sourceWebsiteId == sourceId && c.isActive)).map
    (fun c => c.slug)

/-- Modelled from the spec: one merge run of section 4.3 — classify every
incoming item against the existing catalog, emit one upsert per add/update,
and one batch inactive-marking for the previously active slugs absent from
the result set of this run; counters accumulate the outcomes. -/
def mergeRun (db : Db) (sourceId : Nat) (items : List NormalizedItem) :
    List CatalogWrite × MergeCounters :=
  let addItems := items.filter (fun i => classifyItem db sourceId i == .add)
  let updItems := items.filter (fun i => classifyItem db sourceId i == .update)
  let seen := items.map (fun i => i.slug)
  let stale := (activeSlugs db sourceId).filter (fun s => !seen.contains s)
  let writes := addItems.map .upsertAdd ++ updItems.map .upsertUpdate ++
    (if stale.isEmpty then [] else [.markInactive stale])
  (writes,
   { found := items.length, added := addItems.length,
     updated := updItems.length, removed := stale.length })

/-- Spec-side characterization of one component matching a search request:
active, passes the resolvable source/type filters, and matches the query in
name, description or the tags text. Written from the amended wording of the
result-set description, to be compared against `search`. -/
def specMatch (db : Db) (filter : SearchFilter) (query : String)
    (c : Component) : Bool :=
  c.isActive &&
    (match filter.source with
     | none => true
     | some s =>
       match findSourceBySlug db s with
       | none => true
       | some w => c.sourceWebsiteId == w.id) &&
    (match filter.type with
     | none => true
     | some s =>
       match findTypeBySlug db s with
       | none => true
       | some t => c.componentTypeId == t.id) &&
    textCond query c

/-- A source website used by the concrete stores below. -/
def srcMagic : SourceWebsite :=
  { id := 1, slug := "magic-ui", name := "Magic UI" }

/-- A crawl job currently in status running for srcMagic. -/
def jobRunning : CrawlJob :=
  { id := 7, sourceWebsiteId := 1, status := .running, componentsFound := 0,
    componentsAdded := 0, componentsUpdated := 0, componentsRemoved := 0 }

/-- The job the trigger route inserts when called with newId = 99. -/
def newJob99 : CrawlJob :=
  { id := 99, sourceWebsiteId := 1, status := .pending, componentsFound := 0,
    componentsAdded := 0, componentsUpdated := 0, componentsRemoved := 0 }

/-- Store in which a crawl job for srcMagic is running. -/
def dbRunning : Db :=
  { sourceWebsites := [srcMagic], componentTypes := [], components := [],
    crawlJobs := [jobRunning] }

/-- Store with no crawl job at all. -/
def dbIdle : Db :=
  { sourceWebsites := [srcMagic], componentTypes := [], components := [],
    crawlJobs := [] }

/-- An active component (sourceWebsiteId 1, slug button). -/
def dupA : Component :=
  { id := 1, sourceWebsiteId := 1, componentTypeId := 1, name := "Button",
    slug := "button", description := none, tags := ["ui"],
    sourceCode := "export A", contentHash := "h1", isActive := true,
    viewCount := 0, createdAt := 0 }

/-- A second active component with the same (sourceWebsiteId, slug) key as
dupA but different content. -/
def dupB : Component :=
  { dupA with id := 2, sourceCode := "export B", contentHash := "h2" }

/-- A component whose only relation to the query button is its tag. It sits
first in store order. -/
def cTagged : Component :=
  { id := 1, sourceWebsiteId := 1, componentTypeId := 1, name := "Alpha",
    slug := "alpha", description := none, tags := ["button"],
    sourceCode := "x", contentHash := "ha", isActive := true,
    viewCount := 5, createdAt := 10 }

/-- A component named Button. It sits second in store order. -/
def cNamed : Component :=
  { id := 2, sourceWebsiteId := 1, componentTypeId := 1, name := "Button",
    slug := "button-2", description := none, tags := ["misc"],
    sourceCode := "y", contentHash := "hb", isActive := true,
    viewCount := 0, createdAt := 5 }

/-- An inactive (soft-removed) component that would match the query button. -/
def cInactive : Component :=
  { id := 3, sourceWebsiteId := 1, componentTypeId := 1, name := "Button Old",
    slug := "button-old", description := none, tags := ["button"],
    sourceCode := "z", contentHash := "hc", isActive := false,
    viewCount := 9, createdAt := 1 }

/-- Store holding cTagged before cNamed. -/
def db4 : Db :=
  { sourceWebsites := [srcMagic], componentTypes := [], components := [cTagged, cNamed],
    crawlJobs := [] }

/-- Store holding two active matches and one inactive match for button. -/
def db5 : Db :=
  { sourceWebsites := [srcMagic], componentTypes := [],
    components := [cTagged, cNamed, cInactive], crawlJobs := [] }

/-- A query of 501 characters. -/
def q501 : String := String.mk (List.replicate 501 'a')

/-- Store whose only component is the active dupA (used for C7 and C8). -/
def db8 : Db :=
  { sourceWebsites := [srcMagic], componentTypes := [], components := [dupA],
    crawlJobs := [] }

/-- Service state after an index rebuild over db8 at time 0. -/
def st8 : SearchServiceState := buildSearchIndex db8 0

/-- Store in which dupA has disappeared (empty components table). -/
def dbGone : Db :=
  { sourceWebsites := [srcMagic], componentTypes := [], components := [],
    crawlJobs := [] }

/-- A normalized crawl item identical in key and fingerprint to dupA. -/
def itemBtn : NormalizedItem :=
  { slug := "button", name := "Button", contentHash := "h1" }

theorem strRepLen (n : Nat) (c : Char) :
    (String.mk (List.replicate n c)).length = n := by
  simp [String.length]

theorem sourceCond_unknown (db : Db) (s : String)
    (hs : findSourceBySlug db s = none) : sourceCond db (some s) = [] := by
  simp [sourceCond, hs]

theorem typeCond_unknown (db : Db) (s : String)
    (ht : findTypeBySlug db s = none) : typeCond db (some s) = [] := by
  simp [typeCond, ht]

/-- C1: while a CrawlJob for the source is running, triggerCrawl with
force=false fails synchronously with HTTP 409 and leaves the store — in
particular the crawl_jobs table — unchanged; when no job for the source is
running, it inserts and returns a new pending CrawlJob. -/
theorem C1_trigger_exclusive (db : Db) (slug : String) (newId : Nat)
    (src : SourceWebsite) (hsrc : findSourceBySlug db slug = some src) :
    ((findRunningJob db src.id).isSome = true →
      triggerCrawl db slug false newId =
        (.httpError 409 ("Crawl already in progress for this source"), db)) ∧
    (findRunningJob db src.id = none →
      ∃ job : CrawlJob,
        triggerCrawl db slug false newId =
          (.created job, { db with crawlJobs := db.crawlJobs ++ [job] }) ∧
        job.status = .pending) := by
  constructor
  · intro hrun
    unfold triggerCrawl
    rw [hsrc]
    simp [hrun]
  · intro hnone
    refine ⟨{ id := newId, sourceWebsiteId := src.id, status := .pending,
              componentsFound := 0, componentsAdded := 0,
              componentsUpdated := 0, componentsRemoved := 0 }, ?_, rfl⟩
    unfold triggerCrawl
    rw [hsrc]
    simp [hnone]

/-- C1 witness: on a store with a running job for magic-ui the trigger
returns 409 and the store is unchanged; on an idle store it creates a
pending job. -/
theorem C1_trigger_exclusive_witness :
    (triggerCrawl dbRunning ("magic-ui") false 99 =
      (.httpError 409 ("Crawl already in progress for this source"), dbRunning)) ∧
    (∃ job : CrawlJob,
      triggerCrawl dbIdle ("magic-ui") false 99 =
        (.created job, { dbIdle with crawlJobs := dbIdle.crawlJobs ++ [job] }) ∧
      job.status = .pending) := by
  constructor
  · exact (C1_trigger_exclusive dbRunning ("magic-ui") 99 srcMagic (by decide)).1
      (by decide)
  · exact (C1_trigger_exclusive dbIdle ("magic-ui") 99 srcMagic (by decide)).2
      (by decide)

/-- C2 counterexample: on a store with a running job for magic-ui,
triggerCrawl with force=true creates a new pending job while the stale job
stays in the table with status running — no cancellation is attempted, so
force does leave the stale job running alongside the new one, contrary to
the claim. -/
theorem C2_counterexample :
    triggerCrawl dbRunning ("magic-ui") true 99 =
      (.created newJob99, { dbRunning with crawlJobs := [jobRunning, newJob99] }) ∧
    jobRunning.status = .running ∧ newJob99.status = .pending := by
  decide

/-- C2 amended: triggerCrawl with force=true merely skips the running-job
check — it creates a new pending job and leaves every existing job,
including the stale running one, untouched in the table with its status
unchanged; no cancellation is attempted. -/
theorem C2_force_skips_check (db : Db) (slug : String) (newId : Nat)
    (src : SourceWebsite) (j : CrawlJob)
    (hsrc : findSourceBySlug db slug = some src)
    (hj : j ∈ db.crawlJobs) (hrun : j.status = .running) :
    ∃ job : CrawlJob,
      triggerCrawl db slug true newId =
        (.created job, { db with crawlJobs := db.crawlJobs ++ [job] }) ∧
      job.status = .pending ∧ j ∈ db.crawlJobs ++ [job] ∧
      j.status = .running := by
  refine ⟨{ id := newId, sourceWebsiteId := src.id, status := .pending,
            componentsFound := 0, componentsAdded := 0,
            componentsUpdated := 0, componentsRemoved := 0 }, ?_, rfl, ?_, hrun⟩
  · unfold triggerCrawl
    rw [hsrc]
    simp
  · exact List.mem_append_left _ hj

/-- C2 amended witness: concrete instance of the forced trigger on a store
with a running job. -/
theorem C2_force_skips_check_witness :
    ∃ job : CrawlJob,
      triggerCrawl dbRunning ("magic-ui") true 99 =
        (.created job, { dbRunning with crawlJobs := dbRunning.crawlJobs ++ [job] }) ∧
      job.status = .pending ∧ jobRunning ∈ dbRunning.crawlJobs ++ [job] ∧
      jobRunning.status = .running :=
  C2_force_skips_check dbRunning ("magic-ui") 99 srcMagic jobRunning
    (by decide) (by decide) (by decide)

/-- C3: the code at the failing input — two ComponentService.create calls
with the same (sourceWebsiteId, slug), both active — leaves two active rows
for the pair: create is a plain INSERT and components_source_slug_idx is a
non-unique index, although docs/data-model.md declares
UNIQUE (sourceWebsiteId, slug). -/
theorem C3_duplicate_active_rows :
    ((create (create dbIdle dupA).2 dupB).2.components.filter
      (fun c => c.sourceWebsiteId == 1 && c.slug == "button" && c.isActive)).length = 2 := by
  decide

theorem searchConditions_all_eq (db : Db) (q : String) (f : SearchFilter)
    (c : Component) :
    (searchConditions db q f).all (fun p => p c) = specMatch db f q c := by
  rcases f with ⟨fs, ft⟩
  simp only [searchConditions, specMatch, sourceCond, typeCond]
  cases fs with
  | none =>
    cases ft with
    | none => simp [List.all_append]
    | some t =>
      cases htf : findTypeBySlug db t <;>
        simp [htf, List.all_append, Bool.and_assoc]
  | some s =>
    cases hsf : findSourceBySlug db s with
    | none =>
      cases ft with
      | none => simp [hsf, List.all_append]
      | some t =>
        cases htf : findTypeBySlug db t <;>
          simp [hsf, htf, List.all_append, Bool.and_assoc]
    | some w =>
      cases ft with
      | none => simp [hsf, List.all_append, Bool.and_assoc]
      | some t =>
        cases htf : findTypeBySlug db t <;>
          simp [hsf, htf, List.all_append, Bool.and_assoc]

/-- C4 counterexample: in a store holding first a component named Alpha that
is merely tagged button and then a component named Button, the query button
returns the tagged item first — the name match is not ranked above the tag
match, refuting the claimed weighted relevance order. -/
theorem C4_counterexample :
    (search db4 ("button") 10 ⟨none, none⟩).results = [cTagged, cNamed] ∧
    cTagged.name = "Alpha" ∧ "button" ∈ cTagged.tags ∧
    cNamed.name = "Button" := by
  decide

/-- C4 amended: search applies no relevance ranking at all — it returns, in
catalog store order truncated at the requested limit, exactly the active
components that pass the resolvable source/type filters and contain the
query case-insensitively in name, description, or the text rendering of
tags; no field weighting, exact-over-fuzzy preference, or view-count/name
tie-breaking is applied. -/
theorem C4_no_relevance_ranking (db : Db) (q : String) (lim : Nat)
    (f : SearchFilter) :
    (search db q lim f).results =
      (db.components.filter (fun c => specMatch db f q c)).take lim := by
  unfold search
  simp only
  congr 1
  apply List.filter_congr
  intro c _
  exact searchConditions_all_eq db q f c

/-- C5: a component with isActive=false is excluded from the results of
search and of browse under their default filters, while its row stays in
the components table (search and browse are pure reads of the store and
delete nothing). -/
theorem C5_soft_removed_excluded (db : Db) (c : Component) (q : String)
    (lim page plim : Nat) (f : SearchFilter) (bf : ComponentFilter)
    (sort : BrowseSort)
    (hin : c ∈ db.components) (hinact : c.isActive = false)
    (hdefault : bf.isActive = none) :
    c ∈ db.components ∧
    c ∉ (search db q lim f).results ∧
    c ∉ (browse db page plim bf sort).components := by
  refine ⟨hin, ?_, ?_⟩
  · intro hmem
    simp only [search] at hmem
    have h1 := List.mem_of_mem_take hmem
    have h2 := (List.mem_filter.mp h1).2
    simp only [searchConditions, List.all_append, List.all_cons,
      List.all_nil] at h2
    rw [hinact] at h2
    simp at h2
  · intro hmem
    simp only [browse] at hmem
    have h1 := List.mem_of_mem_take hmem
    have h2 := List.mem_of_mem_drop h1
    have h3 := List.mem_mergeSort.mp h2
    have h4 := (List.mem_filter.mp h3).2
    simp only [browseConditions, hdefault, List.all_append, List.all_cons,
      List.all_nil] at h4
    rw [hinact] at h4
    simp at h4

/-- C5 witness: on a concrete store the inactive component cInactive would
match the query button but appears neither in search nor in browse results,
while its row is still in the table. -/
theorem C5_soft_removed_excluded_witness :
    cInactive ∈ db5.components ∧
    cInactive ∉ (search db5 ("button") 10 ⟨none, none⟩).results ∧
    cInactive ∉ (browse db5 1 10 ⟨none, none, none⟩ .newest).components :=
  C5_soft_removed_excluded db5 cInactive ("button") 10 1 10 ⟨none, none⟩
    ⟨none, none, none⟩ .newest (by decide) (by decide) (by decide)

/-- C6 counterexample: a query of 501 characters has length at least 2 yet
is rejected for length by the route validation (the schema also caps q at
500 characters), refuting the claim that queries of length 2 or more are
never rejected for length. -/
theorem C6_counterexample :
    2 ≤ q501.length ∧
    searchRoute dbIdle q501 20 ⟨none, none⟩ = .validationError 400 := by
  have hlen : q501.length = 501 := strRepLen 501 'a'
  constructor
  · rw [hlen]
    norm_num
  · unfold searchRoute searchQuerySchemaQ
    rw [hlen]
    norm_num

/-- C6 amended: a query shorter than 2 characters is rejected with a 400
validation error and the search itself never runs; a query of length 2 up
to 500 is not rejected for length and the handler answers with the result
of search; queries longer than 500 characters are also rejected for
length. -/
theorem C6_length_validation (db : Db) (q : String) (lim : Nat)
    (f : SearchFilter) :
    (q.length < 2 → searchRoute db q lim f = .validationError 400) ∧
    (2 ≤ q.length → q.length ≤ 500 →
      searchRoute db q lim f = .ok (search db q lim f)) := by
  constructor
  · intro h
    have h2 : ¬ (2 ≤ q.length) := by omega
    unfold searchRoute searchQuerySchemaQ
    simp [h2]
  · intro h1 h2
    unfold searchRoute searchQuerySchemaQ
    simp [h1, h2]

/-- C6 amended witness: the one-character query a is rejected with 400 and
the two-character query ab goes through to search. -/
theorem C6_length_validation_witness :
    searchRoute dbIdle ("a") 20 ⟨none, none⟩ = .validationError 400 ∧
    searchRoute dbIdle ("ab") 20 ⟨none, none⟩ =
      .ok (search dbIdle ("ab") 20 ⟨none, none⟩) :=
  ⟨(C6_length_validation dbIdle ("a") 20 ⟨none, none⟩).1 (by decide),
   (C6_length_validation dbIdle ("ab") 20 ⟨none, none⟩).2 (by decide)
     (by decide)⟩

/-- C7 counterexample: with an index built at time 0 over a store holding a
button component, a query arriving at time 300001 against a store from
which that component is gone is NOT answered from the existing stale index
(which still holds one match): the call rebuilds first and answers from the
new index, returning no results — the read blocked on the rebuild. -/
theorem C7_counterexample :
    needsRebuild st8 300001 = true ∧
    (fuseSearch (indexEntries db8) ("button") 10).length = 1 ∧
    clientSearch st8 dbGone 300001 ("button") 10 =
      (.ok [] 0, buildSearchIndex dbGone 300001) := by
  decide

/-- C7 amended: a query that arrives while the index is within the 5-minute
freshness window is answered from the existing index without rebuilding;
but a query that finds the index missing or older than 5 minutes triggers
the rebuild synchronously in its own call path — the read waits for the
rebuild and is answered from the freshly built index, after which the state
holds the new index (the swap is a single reference assignment, so a read
sees a complete old or complete new index, never a half-built one). -/
theorem C7_stale_read_rebuilds (st : SearchServiceState) (db : Db)
    (now : Nat) (q : String) (lim : Nat) :
    (needsRebuild st now = false →
      ∃ idx, st.fuseIndex = some idx ∧
        clientSearch st db now q lim =
          (.ok (fuseSearch idx q lim) (fuseSearch idx q lim).length, st)) ∧
    (needsRebuild st now = true →
      clientSearch st db now q lim =
        (.ok (fuseSearch (indexEntries db) q lim)
          (fuseSearch (indexEntries db) q lim).length,
         buildSearchIndex db now)) := by
  constructor
  · intro h
    cases hidx : st.fuseIndex with
    | none =>
      exfalso
      unfold needsRebuild at h
      rw [hidx] at h
      simp at h
    | some idx =>
      refine ⟨idx, rfl, ?_⟩
      unfold clientSearch
      rw [h]
      simp [hidx]
  · intro h
    unfold clientSearch
    rw [h]
    simp [buildSearchIndex]

/-- C7 amended witness: at time 100 the fresh index answers without a
rebuild; at time 300001 the same call rebuilds and answers from the new
index. -/
theorem C7_stale_read_rebuilds_witness :
    (∃ idx, st8.fuseIndex = some idx ∧
      clientSearch st8 dbGone 100 ("button") 10 =
        (.ok (fuseSearch idx ("button") 10)
          (fuseSearch idx ("button") 10).length, st8)) ∧
    clientSearch st8 dbGone 300001 ("button") 10 =
      (.ok (fuseSearch (indexEntries dbGone) ("button") 10)
        (fuseSearch (indexEntries dbGone) ("button") 10).length,
       buildSearchIndex dbGone 300001) :=
  ⟨(C7_stale_read_rebuilds st8 dbGone 100 ("button") 10).1 (by decide),
   (C7_stale_read_rebuilds st8 dbGone 300001 ("button") 10).2 (by decide)⟩

/-- C8: a merge run in which every incoming item carries the fingerprint
already stored for its (sourceId, slug) key, and every previously active
slug reappears in the result set of the run, emits no catalog write and counters
added = updated = removed = 0. -/
theorem C8_unchanged_crawl_no_writes (db : Db) (sourceId : Nat)
    (items : List NormalizedItem)
    (hunchanged : ∀ i ∈ items, ∃ c,
      findActiveComponent db sourceId i.slug = some c ∧
      c.contentHash = i.contentHash)
    (hcover : ∀ s ∈ activeSlugs db sourceId,
      s ∈ items.map (fun i => i.slug)) :
    (mergeRun db sourceId items).1 = [] ∧
    (mergeRun db sourceId items).2.added = 0 ∧
    (mergeRun db sourceId items).2.updated = 0 ∧
    (mergeRun db sourceId items).2.removed = 0 := by
  have hclass : ∀ i ∈ items, classifyItem db sourceId i = .unchanged := by
    intro i hi
    obtain ⟨c, hc, hh⟩ := hunchanged i hi
    unfold classifyItem
    rw [hc]
    simp [hh]
  have hadd : items.filter (fun i => classifyItem db sourceId i == .add) = [] := by
    apply List.filter_eq_nil_iff.mpr
    intro i hi
    simp [hclass i hi]
  have hupd : items.filter (fun i => classifyItem db sourceId i == .update) = [] := by
    apply List.filter_eq_nil_iff.mpr
    intro i hi
    simp [hclass i hi]
  have hstale : (activeSlugs db sourceId).filter
      (fun s => !(items.map (fun i => i.slug)).contains s) = [] := by
    apply List.filter_eq_nil_iff.mpr
    intro s hs
    obtain ⟨x, hx, hxs⟩ := List.mem_map.mp (hcover s hs)
    simp
    exact ⟨x, hx, hxs⟩
  simp only [mergeRun]
  rw [hadd, hupd, hstale]
  simp

/-- C8 witness: one stored active component and one incoming item with the
same slug and fingerprint — the run writes nothing and all three mutation
counters are zero. -/
theorem C8_unchanged_crawl_no_writes_witness :
    (mergeRun db8 1 [itemBtn]).1 = [] ∧
    (mergeRun db8 1 [itemBtn]).2.added = 0 ∧
    (mergeRun db8 1 [itemBtn]).2.updated = 0 ∧
    (mergeRun db8 1 [itemBtn]).2.removed = 0 :=
  C8_unchanged_crawl_no_writes db8 1 [itemBtn]
    (by
      intro i hi
      simp only [List.mem_singleton] at hi
      subst hi
      exact ⟨dupA, by decide, by decide⟩)
    (by decide)

/-- C9: a source or type filter naming a slug absent from the store is
silently dropped by both search and browse — the result is identical to the
call without that filter; no error is raised and the results are not forced
empty. -/
theorem C9_unknown_filter_dropped (db : Db) (q : String)
    (lim page plim : Nat) (s t : String) (ia : Option Bool)
    (sort : BrowseSort)
    (hs : findSourceBySlug db s = none) (ht : findTypeBySlug db t = none) :
    search db q lim ⟨some s, some t⟩ = search db q lim ⟨none, none⟩ ∧
    browse db page plim ⟨some s, some t, ia⟩ sort =
      browse db page plim ⟨none, none, ia⟩ sort := by
  have hconds : searchConditions db q ⟨some s, some t⟩ =
      searchConditions db q ⟨none, none⟩ := by
    simp [searchConditions, sourceCond, typeCond, hs, ht]
  have hbconds : browseConditions db ⟨some s, some t, ia⟩ =
      browseConditions db ⟨none, none, ia⟩ := by
    simp [browseConditions, hs, ht]
  constructor
  · unfold search
    rw [hconds]
  · unfold browse
    rw [hbconds]

/-- C9 witness: on a store that knows neither the source slug nope nor the
type slug nada, filtered search and browse coincide with their unfiltered
counterparts. -/
theorem C9_unknown_filter_dropped_witness :
    search db4 ("button") 10 ⟨some ("nope"), some ("nada")⟩ =
      search db4 ("button") 10 ⟨none, none⟩ ∧
    browse db4 1 10 ⟨some ("nope"), some ("nada"), none⟩ .newest =
      browse db4 1 10 ⟨none, none, none⟩ .newest :=
  C9_unknown_filter_dropped db4 ("button") 10 1 10 ("nope") ("nada") none
    .newest (by decide) (by decide)

/-- C10: the total field of every search result equals the length of the
returned results list, which is capped at the requested limit; concretely,
on a store where two components match the query button, a search with limit
1 reports total = 1 even though the catalog holds 2 matches. -/
theorem C10_total_is_returned_count (db : Db) (q : String) (lim : Nat)
    (f : SearchFilter) :
    ((search db q lim f).total = (search db q lim f).results.length ∧
      (search db q lim f).results.length ≤ lim) ∧
    ((search db4 ("button") 1 ⟨none, none⟩).total = 1 ∧
      (db4.components.filter
        (fun c => (searchConditions db4 ("button") ⟨none, none⟩).all
          (fun p => p c))).length = 2) := by
  refine ⟨⟨rfl, ?_⟩, by decide⟩
  simp only [search]
  apply List.length_take_le
